import Mathlib

/-!
Shallow embedding of the wide-string core of this repository:
`src/c_wchar_t.rs` (the platform width resolver) and `src/cxx_wstring.rs`
(the `CxxWString` handle, its view/comparison layer, and the `StackWString`
stack-construction facility with its `let_cxx_wstring!` entry point).

The foreign side of the call boundary (the `cxxbridge1$cxx_wstring$...`
entry points declared in cxx_wstring.rs lines 23-41) is implemented in
C++ code that is not part of these sources; each such call is modelled
from the spec (section 4.2) and its doc comment says so.
-/

namespace CxxW

/-! ## Width resolver (src/c_wchar_t.rs) -/

inductive Signedness where
  | signed
  | unsigned
deriving DecidableEq, Repr

/-- An integer type definition: bit width plus signedness. -/
structure WideCharDef where
  bits : Nat
  sign : Signedness
deriving DecidableEq, Repr

/-- Source module `unsigned` (c_wchar_t.rs lines 63-65): its `c_wchar_t`
is `u32`. -/
def unsigned_c_wchar_t : WideCharDef := ⟨32, Signedness.unsigned⟩

/-- Source module `signed` (c_wchar_t.rs lines 67-69): its `c_wchar_t`
is `i32`. -/
def signed_c_wchar_t : WideCharDef := ⟨32, Signedness.signed⟩

/-- Operating systems named by the cfg list in c_wchar_t.rs lines 13-57;
`otherOs` stands for every target OS the list does not name. -/
inductive TargetOs where
  | linux
  | android
  | l4re
  | freebsd
  | netbsd
  | openbsd
  | vxworks
  | fuchsia
  | otherOs
deriving DecidableEq, Repr

/-- CPU architectures named by the cfg list in c_wchar_t.rs lines 13-57;
`otherArch` stands for every architecture the list does not name. -/
inductive TargetArch where
  | aarch64
  | arm
  | hexagon
  | powerpc
  | powerpc64
  | s390x
  | riscv64
  | riscv32
  | x86_64
  | otherArch
deriving DecidableEq, Repr

/-- The `#[cfg(any(...))]` predicate guarding line 58 of c_wchar_t.rs:
true exactly on the (os, arch) pairs the source lists under the comment
"These are the targets on which c_char is unsigned". -/
def isUnsignedTarget (os : TargetOs) (arch : TargetArch) : Bool :=
  match os, arch with
  | .linux, .aarch64 => true
  | .linux, .arm => true
  | .linux, .hexagon => true
  | .linux, .powerpc => true
  | .linux, .powerpc64 => true
  | .linux, .s390x => true
  | .linux, .riscv64 => true
  | .linux, .riscv32 => true
  | .android, .aarch64 => true
  | .android, .arm => true
  | .l4re, .x86_64 => true
  | .freebsd, .aarch64 => true
  | .freebsd, .arm => true
  | .freebsd, .powerpc => true
  | .freebsd, .powerpc64 => true
  | .freebsd, .riscv64 => true
  | .netbsd, .aarch64 => true
  | .netbsd, .arm => true
  | .netbsd, .powerpc => true
  | .openbsd, .aarch64 => true
  | .vxworks, .aarch64 => true
  | .vxworks, .arm => true
  | .vxworks, .powerpc64 => true
  | .vxworks, .powerpc => true
  | .fuchsia, .aarch64 => true
  | _, _ => false

/-- The items module `unsigned` defines (c_wchar_t.rs lines 63-65): only
the type `c_wchar_t`. -/
def unsignedModuleItems : List String := ["c_wchar_t"]

/-- The item name the cfg-gated re-export on line 58 of c_wchar_t.rs asks
module `unsigned` for: `pub use self::unsigned::c_char;`. -/
def unsignedReexportName : String := "c_char"

/-- The `c_wchar_t` definition produced by `mod c_wchar_t_definition` of
c_wchar_t.rs for a given target, as the source resolves it. The glob
re-export `pub use self::signed::*;` (line 61) is not cfg-gated, so the
signed 32-bit definition is supplied on every target. On the targets of
the cfg list, line 58 additionally asks for `self::unsigned::c_char` — it
would shadow the glob there, but module `unsigned` defines no such item,
so name resolution fails and the module produces no definition on those
targets (`none`: the crate does not build there). On every other target
the resolved `c_wchar_t` is the signed 32-bit unit. -/
def c_wchar_t_definition (os : TargetOs) (arch : TargetArch) : Option WideCharDef :=
  if isUnsignedTarget os arch then
    if unsignedModuleItems.contains unsignedReexportName then some unsigned_c_wchar_t
    else none
  else some signed_c_wchar_t

/-- The Width Resolver as the spec words it (spec section 4.1), written for
comparison with `c_wchar_t_definition`: "produce exactly one of two integer
definitions — a 32-bit unsigned unit or a 32-bit signed unit", the unsigned
one on the listed targets and the signed one on every other target. -/
def specWidthResolver (os : TargetOs) (arch : TargetArch) : WideCharDef :=
  if isUnsignedTarget os arch then unsigned_c_wchar_t else signed_c_wchar_t

/-- Source `type wchar_t = u32;` (cxx_wstring.rs line 21): the handle
module's wide-character unit, declared locally in that module, unsigned
32-bit on every target. -/
def wchar_t : WideCharDef := ⟨32, Signedness.unsigned⟩

/-- The unit type appearing in every pointer parameter of the extern
boundary declarations (cxx_wstring.rs lines 23-41): the module's local
`wchar_t`. -/
def boundaryUnit : WideCharDef := wchar_t

/-- The unit type of the raw view `as_wchars` (cxx_wstring.rs lines
125-129): the module's local `wchar_t`. -/
def viewUnit : WideCharDef := wchar_t

/-! ## The foreign string and the call boundary (cxx_wstring.rs lines 23-41,
implemented outside these sources) -/

/-- Maximum value of `usize` on a 64-bit target. -/
def USIZE_MAX : Nat := 2 ^ 64 - 1

/-- Semantics of Rust `usize::checked_add`: the sum, or `none` on
overflow past `USIZE_MAX`. -/
def checkedAdd (a b : Nat) : Option Nat :=
  if a + b ≤ USIZE_MAX then some (a + b) else none

/-- The foreign `std::wstring` value behind a handle, observed through the
boundary reads: its content as the sequence of wide-character units (each
unit one `u32` value). Storage, capacity and growth policy live on the
foreign side and are not observable through the boundary reads modelled
here. -/
structure WStringObj where
  content : List Nat
deriving DecidableEq, Repr

/-- Modelled from the spec: boundary `init` (spec section 4.2,
`cxxbridge1$cxx_wstring$init`, implemented outside these sources) —
"placement-constructs a new foreign string from a wide-character buffer":
the constructed string's content is the source buffer. -/
def wstring_init (source : List Nat) : WStringObj := ⟨source⟩

/-- Modelled from the spec: boundary `length` (spec section 4.2,
`cxxbridge1$cxx_wstring$length`, implemented outside these sources) — a
pure read of the unit count. -/
def wstring_length (s : WStringObj) : Nat := s.content.length

/-- Modelled from the spec: boundary `data` (spec section 4.2,
`cxxbridge1$cxx_wstring$data`, implemented outside these sources) — a
pointer to the first code unit, "valid for `length` units": reading `n`
units from it yields the first `n` units of the content. -/
def wstring_read (s : WStringObj) (n : Nat) : List Nat := s.content.take n

/-- Modelled from the spec: boundary `clear` (spec section 4.2,
`cxxbridge1$cxx_wstring$clear`, implemented outside these sources) —
"empties contents". -/
def wstring_clear (s : WStringObj) : WStringObj := ⟨[]⟩

/-- Modelled from the spec: boundary `reserve_total` (spec section 4.2,
`cxxbridge1$cxx_wstring$reserve_total`, implemented outside these
sources) — "ensures total capacity ≥ given value; may reallocate
internally": the content is unchanged. -/
def wstring_reserve_total (s : WStringObj) (newCap : Nat) : WStringObj := s

/-- Modelled from the spec: boundary `push` (spec section 4.2,
`cxxbridge1$cxx_wstring$push`, implemented outside these sources) —
"appends units to the end". -/
def wstring_push (s : WStringObj) (units : List Nat) : WStringObj :=
  ⟨s.content ++ units⟩

/-- Modelled from the spec: boundary `new` (spec section 4.2,
`cxxbridge1$cxx_wstring$new`, implemented outside these sources) —
"heap-allocates a new foreign string" from the buffer. -/
def wstring_new (units : List Nat) : WStringObj := ⟨units⟩

/-! ## CxxWString methods (cxx_wstring.rs lines 99-311) -/

namespace CxxWString

/-- Source `CxxWString::len` (cxx_wstring.rs lines 111-113): delegates to
boundary `length`. -/
def len (s : WStringObj) : Nat := wstring_length s

/-- Source `CxxWString::is_empty` (cxx_wstring.rs lines 120-122). -/
def is_empty (s : WStringObj) : Bool := len s == 0

/-- Source `CxxWString::as_wchars` (cxx_wstring.rs lines 125-129):
`slice::from_raw_parts(self.as_ptr(), self.len())` — reads `len()` units
starting at boundary `data`. -/
def as_wchars (s : WStringObj) : List Nat := wstring_read s (len s)

/-- Source `CxxWString::as_chars` (cxx_wstring.rs lines 132-136): the same
pointer and length, the `u32` units reinterpreted in place as `char`
(`data as *const char`) — a bit-identical view, no validating decode. -/
def as_chars (s : WStringObj) : List Nat := wstring_read s (len s)

/-- Source `CxxWString::to_str` (cxx_wstring.rs lines 163-165):
`self.as_chars().iter().collect()` — the owned string is exactly the
character sequence of the `as_chars` view, collected as-is. -/
def to_str (s : WStringObj) : List Nat := as_chars s

/-- Source `CxxWString::clear` (cxx_wstring.rs lines 190-192). -/
def clear (s : WStringObj) : WStringObj := wstring_clear s

/-- Source `CxxWString::reserve` (cxx_wstring.rs lines 214-220):
`self.len().checked_add(additional).expect("CxxWString capacity
overflow")`, then boundary `reserve_total` on the sum; `none` models the
`expect` panic on overflow. -/
def reserve (s : WStringObj) (additional : Nat) : Option WStringObj :=
  match checkedAdd (len s) additional with
  | some newCap => some (wstring_reserve_total s newCap)
  | none => none

/-- Source `CxxWString::push_chars` (cxx_wstring.rs lines 229-231):
boundary `push` of the given characters, their buffer reinterpreted as
wide units in place. -/
def push_chars (s : WStringObj) (chars : List Nat) : WStringObj :=
  wstring_push s chars

/-- Source `CxxWString::push_str` (cxx_wstring.rs lines 223-226): collects
the text's characters and calls `push_chars`. -/
def push_str (s : WStringObj) (text : List Nat) : WStringObj :=
  push_chars s text

/-- Source `impl PartialEq for CxxWString` (cxx_wstring.rs lines 255-259):
slice equality of the two raw `as_wchars` views. -/
def beq (a b : WStringObj) : Bool := as_wchars a == as_wchars b

/-- Rust `impl Ord for [T]`, used by `CxxWString::cmp` on the `as_chars`
slices: compare the common prefix element-wise and return at the first
difference; if one slice is exhausted, compare lengths. -/
def sliceCmp : List Nat → List Nat → Ordering
  | a :: as, b :: bs =>
    match compare a b with
    | Ordering.eq => sliceCmp as bs
    | o => o
  | a, b => compare a.length b.length

/-- Source `impl Ord for CxxWString` (cxx_wstring.rs lines 301-305):
`self.as_chars().cmp(other.as_chars())`. -/
def cmp (a b : WStringObj) : Ordering := sliceCmp (as_chars a) (as_chars b)

/-- Source `impl Hash for CxxWString` (cxx_wstring.rs lines 307-311):
`self.as_chars().hash(state)`. Rust slice hashing feeds the slice length
and then each element to the hasher, so the data fed to any hasher is
this function of the `as_chars` view alone. -/
def hashFeed (s : WStringObj) : List Nat :=
  (as_chars s).length :: as_chars s

/-- Source `CxxWString::create` (cxx_wstring.rs lines 234-240):
heap-constructs via boundary `new` and wraps the owning pointer. -/
def create (chars : List Nat) : WStringObj := wstring_new chars

end CxxWString

/-! ## Spec-side comparison definitions -/

/-- Lexicographic element-wise comparison, written after the spec's words
(spec section 8: "lexicographic unit-wise comparison of `as_chars()`
views"): the first differing position decides, and a strict prefix is
smaller. Written for comparison with the source-derived `sliceCmp`. -/
def lexCmpSpec : List Nat → List Nat → Ordering
  | [], [] => Ordering.eq
  | [], _ :: _ => Ordering.lt
  | _ :: _, [] => Ordering.gt
  | a :: as, b :: bs =>
    if a < b then Ordering.lt
    else if b < a then Ordering.gt
    else lexCmpSpec as bs

/-- The additional-to-total conversion claim C2 words: saturating addition
(`usize::saturating_add`), which clamps at `USIZE_MAX` and cannot fail.
Written after the claim's words, for comparison with the source's checked
conversion in `CxxWString.reserve`. -/
def reserve_saturating (s : WStringObj) (additional : Nat) : Option WStringObj :=
  some (wstring_reserve_total s (min (CxxWString.len s + additional) USIZE_MAX))

/-- Whether a unit value is a valid Unicode scalar value (Rust `char`
validity): below the surrogate block, or above it and below 0x110000. -/
def validChar (u : Nat) : Bool :=
  decide (u < 0xD800) || (decide (0xDFFF < u) && decide (u < 0x110000))

/-- The sanitizing conversion the spec contrasts `to_str` with (spec
sections 4.3 and 7): replace every out-of-range unit by the U+FFFD
replacement character. Written for comparison with `CxxWString.to_str`. -/
def sanitizeToText (units : List Nat) : List Nat :=
  units.map (fun u => if validChar u then u else 0xFFFD)

/-- A handle whose foreign string already holds `USIZE_MAX` units, so any
further addition to its length overflows `usize`. -/
def maxLenW : WStringObj := ⟨List.replicate USIZE_MAX 0⟩

/-! ## Stack-construction facility (cxx_wstring.rs lines 88-97, 313-346) -/

/-- The boundary entry points (cxx_wstring.rs lines 23-41), by name. -/
inductive BoundaryCall where
  | initCall
  | destroyCall
  | dataCall
  | lengthCall
  | clearCall
  | reserveCall
  | pushCall
  | newCall
deriving DecidableEq, Repr

/-- Lifecycle state of a stack storage cell (spec section 4.4). -/
inductive CellState where
  | uninit
  | inited
  | destroyed
deriving DecidableEq, Repr

/-- Source `StackWString` (cxx_wstring.rs lines 313-319): the caller-stack
storage cell (`MaybeUninit` space); we track the lifecycle state the
storage is in. -/
structure StackWString where
  state : CellState
deriving DecidableEq, Repr

namespace StackWString

/-- Source `StackWString::new` (cxx_wstring.rs lines 323-327):
uninitialized storage. -/
def new : StackWString := ⟨CellState.uninit⟩

/-- Boundary calls `StackWString::new` performs: none
(`MaybeUninit::uninit()` touches no foreign code). -/
def newCalls : List BoundaryCall := []

/-- Source `StackWString::init` (cxx_wstring.rs lines 329-336):
placement-constructs the foreign string into the cell's storage with one
boundary `init` call and yields the pinned handle. -/
def init (c : StackWString) (value : List Nat) : StackWString × WStringObj :=
  (⟨CellState.inited⟩, wstring_init value)

/-- Boundary calls `StackWString::init` performs: exactly one `init`. -/
def initCalls : List BoundaryCall := [BoundaryCall.initCall]

/-- Source `impl Drop for StackWString` (cxx_wstring.rs lines 339-346):
the drop glue casts the storage and calls boundary `destroy` on it. -/
def drop (c : StackWString) : StackWString := ⟨CellState.destroyed⟩

/-- Boundary calls the drop glue performs: exactly one `destroy`,
unconditionally — the source drop body (cxx_wstring.rs lines 339-346) does
not inspect whether `init` ever ran on the storage. -/
def dropCalls (c : StackWString) : List BoundaryCall := [BoundaryCall.destroyCall]

end StackWString

/-- Stack construction as the spec's `stack_construct` (spec section 8):
what `let_cxx_wstring!` (cxx_wstring.rs lines 88-97) does — a fresh
`StackWString`, then `init` on it — yielding the constructed handle. -/
def stack_construct (chars : List Nat) : WStringObj :=
  (StackWString.init StackWString.new chars).2

/-- The operations the public API offers on the pinned handle for the
scope's duration (the methods of cxx_wstring.rs lines 99-311). -/
inductive HandleOp where
  | lenOp
  | asWcharsOp
  | asCharsOp
  | clearOp
  | reserveOp (additional : Nat)
  | pushCharsOp (chars : List Nat)
  | pushStrOp (text : List Nat)
deriving DecidableEq, Repr

/-- The boundary calls each public handle operation performs, read off the
method bodies in cxx_wstring.rs: none of them reaches `init` or
`destroy`. -/
def HandleOp.calls : HandleOp → List BoundaryCall
  | HandleOp.lenOp => [BoundaryCall.lengthCall]
  | HandleOp.asWcharsOp => [BoundaryCall.dataCall, BoundaryCall.lengthCall]
  | HandleOp.asCharsOp => [BoundaryCall.dataCall, BoundaryCall.lengthCall]
  | HandleOp.clearOp => [BoundaryCall.clearCall]
  | HandleOp.reserveOp _ => [BoundaryCall.lengthCall, BoundaryCall.reserveCall]
  | HandleOp.pushCharsOp _ => [BoundaryCall.pushCall]
  | HandleOp.pushStrOp _ => [BoundaryCall.pushCall]

/-- The boundary calls of a whole scope body, in order. -/
def bodyCalls (body : List HandleOp) : List BoundaryCall :=
  (body.map HandleOp.calls).flatten

/-- The boundary-call trace of one `let_cxx_wstring!` scope (cxx_wstring.rs
lines 88-97): the expansion runs `StackWString::new` (no boundary call),
then `init` (one boundary `init`), then the scope body. `k` cuts the
body's calls at an arbitrary point, modelling how far the body ran before
the scope ended — by normal exit (`k` at least the body's call count), an
early return, or a propagated failure part-way through. In every one of
these cases Rust runs the cell's drop glue when the scope ends, appending
its one boundary `destroy`. -/
def scopeTrace (value : List Nat) (body : List HandleOp) (k : Nat) : List BoundaryCall :=
  StackWString.newCalls ++ StackWString.initCalls ++ (bodyCalls body).take k
    ++ StackWString.dropCalls (StackWString.init StackWString.new value).1

/-- Occurrence count of one boundary call in a trace. -/
def countCall (c : BoundaryCall) : List BoundaryCall → Nat
  | [] => 0
  | x :: xs => (if x = c then 1 else 0) + countCall c xs

/-! ## Helper lemmas -/

theorem countCall_append (c : BoundaryCall) (l1 l2 : List BoundaryCall) :
    countCall c (l1 ++ l2) = countCall c l1 + countCall c l2 := by
  induction l1 with
  | nil => simp [countCall]
  | cons x xs ih => simp [countCall, ih]; omega

theorem countCall_eq_zero (c : BoundaryCall) (l : List BoundaryCall) (h : c ∉ l) :
    countCall c l = 0 := by
  induction l with
  | nil => rfl
  | cons x xs ih =>
    rw [List.mem_cons] at h
    push_neg at h
    rw [countCall, if_neg (fun hx => h.1 hx.symm), ih h.2]

theorem bodyCalls_no_init_destroy (body : List HandleOp) :
    BoundaryCall.initCall ∉ bodyCalls body ∧ BoundaryCall.destroyCall ∉ bodyCalls body := by
  constructor <;>
  · intro h
    rw [bodyCalls, List.mem_flatten] at h
    obtain ⟨s, hs, hmem⟩ := h
    rw [List.mem_map] at hs
    obtain ⟨op, _, rfl⟩ := hs
    cases op <;> simp [HandleOp.calls] at hmem

theorem sliceCmp_eq_lexCmpSpec (x : List Nat) : ∀ y : List Nat,
    CxxWString.sliceCmp x y = lexCmpSpec x y := by
  induction x with
  | nil =>
    intro y
    cases y with
    | nil => rfl
    | cons b bs =>
      show compare (List.length []) (List.length (b :: bs)) = Ordering.lt
      exact Nat.compare_eq_lt.2 (by simp)
  | cons a as ih =>
    intro y
    cases y with
    | nil =>
      show compare (List.length (a :: as)) (List.length []) = Ordering.gt
      exact Nat.compare_eq_gt.2 (by simp)
    | cons b bs =>
      rcases Nat.lt_trichotomy a b with h | h | h
      · simp only [CxxWString.sliceCmp, lexCmpSpec, Nat.compare_eq_lt.2 h, if_pos h]
      · subst h
        simp only [CxxWString.sliceCmp, lexCmpSpec, Nat.compare_eq_eq.2 rfl,
          if_neg (lt_irrefl a)]
        exact ih bs
      · simp only [CxxWString.sliceCmp, lexCmpSpec, Nat.compare_eq_gt.2 h,
          if_neg (Nat.lt_asymm h), if_pos h]

theorem beq_iff_as_wchars (a b : WStringObj) :
    CxxWString.beq a b = true ↔ CxxWString.as_wchars a = CxxWString.as_wchars b := by
  simp [CxxWString.beq]

theorem reserve_of_checkedAdd_none (s : WStringObj) (n : Nat)
    (h : checkedAdd (CxxWString.len s) n = none) : CxxWString.reserve s n = none := by
  unfold CxxWString.reserve
  rw [h]

/-! ## Claim theorems -/

/-- C1: for every stack-constructed string instance, the scope's
boundary-call trace — `let_cxx_wstring!`'s expansion of `new` + `init`, any
executed prefix of the body's public-API calls (normal exit, early return
or propagated failure), then the cell's drop glue at scope exit — invokes
the boundary `init` call exactly once and the boundary `destroy` call
exactly once; no sequence of public-API operations adds a second `init` or
removes the `destroy`. -/
theorem claim1_scope_init_destroy_once :
    ∀ (value : List Nat) (body : List HandleOp) (k : Nat),
      countCall BoundaryCall.initCall (scopeTrace value body k) = 1 ∧
      countCall BoundaryCall.destroyCall (scopeTrace value body k) = 1 := by
  intro value body k
  have hbody := bodyCalls_no_init_destroy body
  have h1 : BoundaryCall.initCall ∉ (bodyCalls body).take k :=
    fun h => hbody.1 (List.take_subset k (bodyCalls body) h)
  have h2 : BoundaryCall.destroyCall ∉ (bodyCalls body).take k :=
    fun h => hbody.2 (List.take_subset k (bodyCalls body) h)
  constructor <;>
    simp [scopeTrace, StackWString.newCalls, StackWString.initCalls, StackWString.dropCalls,
      StackWString.init, countCall_append, countCall_eq_zero _ _ h1, countCall_eq_zero _ _ h2,
      countCall]

/-- C2 counterexample: the claim says `reserve` converts additional to
total capacity by *saturating* addition; at a handle of length
`USIZE_MAX` and additional 1, the source's `reserve` fails fatally
(`checked_add` + `expect`, modelled as `none`) while the saturating
conversion succeeds, so the two disagree. -/
theorem claim2_reserve_not_saturating_cex :
    (CxxWString.reserve maxLenW 1 = reserve_saturating maxLenW 1) ↔ False := by
  rw [iff_false]
  intro h
  have hlen : CxxWString.len maxLenW = USIZE_MAX := List.length_replicate USIZE_MAX 0
  have hck : checkedAdd (CxxWString.len maxLenW) 1 = none := by
    rw [hlen]
    unfold checkedAdd
    rw [if_neg (Nat.not_succ_le_self USIZE_MAX)]
  rw [reserve_of_checkedAdd_none maxLenW 1 hck] at h
  simp only [reserve_saturating] at h
  exact Option.noConfusion h

/-- C2 amended: `reserve(h, n)` converts the additional amount to a total
capacity by *checked* addition of `n` to the current length; when the sum
stays within `usize`, boundary `reserve_total` is called with exactly
`len(h) + n`, and when it overflows `usize` the operation is a fatal,
caller-visible failure (a panic, modelled `none`) — never silently
saturated or wrapped. -/
theorem claim2_reserve_checked_overflow_fatal :
    (∀ (s : WStringObj) (n : Nat), CxxWString.len s + n ≤ USIZE_MAX →
      CxxWString.reserve s n = some (wstring_reserve_total s (CxxWString.len s + n))) ∧
    (∀ (s : WStringObj) (n : Nat), USIZE_MAX < CxxWString.len s + n →
      CxxWString.reserve s n = none) := by
  constructor
  · intro s n h
    simp [CxxWString.reserve, checkedAdd, if_pos h]
  · intro s n h
    simp [CxxWString.reserve, checkedAdd, if_neg (Nat.not_le.2 h)]

/-- C3 counterexample: on the listed unsigned target (linux, aarch64) the
resolver module does not produce the unsigned 32-bit definition (its
cfg-gated line re-exports `unsigned::c_char`, a name module `unsigned`
does not define, so no definition resolves there); and on (linux, x86_64)
the unit used by the handle's boundary calls is not the resolver's
definition (the handle's local `wchar_t` is unsigned, the resolver's
definition signed). -/
theorem claim3_width_resolver_cex :
    ((c_wchar_t_definition TargetOs.linux TargetArch.aarch64 = some unsigned_c_wchar_t) ↔
      False) ∧
    ((c_wchar_t_definition TargetOs.linux TargetArch.x86_64 = some boundaryUnit) ↔ False) := by
  constructor <;> (rw [iff_false]; decide)

/-- C3 amended: the resolver module as written supplies the *signed* 32-bit
definition on every target outside its cfg list (the unconditional glob
re-export of the signed module), and on the listed targets it produces no
definition at all (the cfg-gated line asks module `unsigned` for `c_char`,
an item it does not define); the handle module does not consume the
resolver's type but declares its own unsigned 32-bit unit `wchar_t = u32`,
and that local unit is the single one shared by the handle's boundary-call
signatures and views. -/
theorem claim3_width_resolver_amended :
    (∀ (os : TargetOs) (arch : TargetArch), isUnsignedTarget os arch = false →
      c_wchar_t_definition os arch = some signed_c_wchar_t) ∧
    (∀ (os : TargetOs) (arch : TargetArch), isUnsignedTarget os arch = true →
      c_wchar_t_definition os arch = none) ∧
    unsignedModuleItems.contains unsignedReexportName = false ∧
    wchar_t = unsigned_c_wchar_t ∧ boundaryUnit = wchar_t ∧ viewUnit = wchar_t := by
  refine ⟨?_, ?_, by decide, rfl, rfl, rfl⟩
  · intro os arch h
    simp [c_wchar_t_definition, h]
  · intro os arch h
    simp [c_wchar_t_definition, h]
    decide

/-- C4: stack-constructing a string from a character slice and reading its
decoded character view yields exactly that slice:
`stack_construct(c).as_chars() == c`. -/
theorem claim4_stack_construct_roundtrip :
    ∀ chars : List Nat, (∀ u ∈ chars, validChar u = true) →
      CxxWString.as_chars (stack_construct chars) = chars := by
  intro chars _
  simp [stack_construct, StackWString.init, wstring_init, CxxWString.as_chars,
    wstring_read, CxxWString.len, wstring_length, List.take_length]

/-- C4 witness: the round trip at the concrete slice ['a', 'b', 'c']. -/
theorem claim4_stack_construct_roundtrip_witness :
    CxxWString.as_chars (stack_construct [97, 98, 99]) = [97, 98, 99] :=
  claim4_stack_construct_roundtrip [97, 98, 99] (by decide)

/-- C5: handle equality is reflexive, symmetric and transitive, and two
handles are equal exactly when their raw wide-unit views are equal
sequences. -/
theorem claim5_eq_equivalence_iff_wide_units :
    (∀ a : WStringObj, CxxWString.beq a a = true) ∧
    (∀ a b : WStringObj, CxxWString.beq a b = true → CxxWString.beq b a = true) ∧
    (∀ a b c : WStringObj, CxxWString.beq a b = true → CxxWString.beq b c = true →
      CxxWString.beq a c = true) ∧
    (∀ a b : WStringObj, CxxWString.beq a b = true ↔
      CxxWString.as_wchars a = CxxWString.as_wchars b) :=
  ⟨fun a => (beq_iff_as_wchars a a).2 rfl,
    fun a b h => (beq_iff_as_wchars b a).2 ((beq_iff_as_wchars a b).1 h).symm,
    fun a b c h1 h2 =>
      (beq_iff_as_wchars a c).2 (((beq_iff_as_wchars a b).1 h1).trans
        ((beq_iff_as_wchars b c).1 h2)),
    beq_iff_as_wchars⟩

/-- C6: the data fed to the hasher is computed over the codepoint
(`as_chars`) view, and equal handles (equality decided over the raw
wide-unit view) feed identical data to every hasher, hence produce
identical hash output. -/
theorem claim6_hash_over_chars_consistent :
    (∀ s : WStringObj, CxxWString.hashFeed s =
      (CxxWString.as_chars s).length :: CxxWString.as_chars s) ∧
    (∀ (hasher : List Nat → Nat) (a b : WStringObj), CxxWString.beq a b = true →
      hasher (CxxWString.hashFeed a) = hasher (CxxWString.hashFeed b)) := by
  have key : ∀ a b : WStringObj, CxxWString.beq a b = true →
      CxxWString.as_chars a = CxxWString.as_chars b := by
    intro a b h
    exact (beq_iff_as_wchars a b).1 h
  exact ⟨fun s => rfl,
    fun hasher a b h => by rw [CxxWString.hashFeed, CxxWString.hashFeed, key a b h]⟩

/-- C7: the total ordering on handles equals the lexicographic element-wise
comparison of their `as_chars` views. -/
theorem claim7_ord_lexicographic :
    ∀ a b : WStringObj,
      CxxWString.cmp a b = lexCmpSpec (CxxWString.as_chars a) (CxxWString.as_chars b) := by
  intro a b
  rw [CxxWString.cmp, sliceCmp_eq_lexCmpSpec]

/-- C8: `to_str` is exactly the character sequence of the `as_chars` view
collected into an owned string — every unit decoded as-is, with no
validation pass; in particular an out-of-range unit (the surrogate 0xD800)
passes through unchanged, where the sanitizing conversion would have
substituted the replacement character 0xFFFD. -/
theorem claim8_to_str_passthrough :
    (∀ s : WStringObj, CxxWString.to_str s = CxxWString.as_chars s) ∧
    CxxWString.to_str ⟨[0xD800]⟩ = [0xD800] ∧
    sanitizeToText (CxxWString.as_chars ⟨[0xD800]⟩) = [0xFFFD] :=
  ⟨fun s => rfl, by decide, by decide⟩

/-- C9: two successive pushes append in order — the raw wide-unit view
after `push(h, s1); push(h, s2)` is the original view with `s1` then `s2`
appended. -/
theorem claim9_push_push_append :
    ∀ (s : WStringObj) (s1 s2 : List Nat),
      CxxWString.as_wchars (CxxWString.push_chars (CxxWString.push_chars s s1) s2) =
        CxxWString.as_wchars s ++ s1 ++ s2 := by
  intro s s1 s2
  simp [CxxWString.push_chars, wstring_push, CxxWString.as_wchars, wstring_read,
    CxxWString.len, wstring_length, List.take_length, List.append_assoc]

/-- C10: a stack cell created by `StackWString::new` is uninitialized, and
the drop glue invokes the boundary `destroy` call unconditionally — on
every cell whatever its lifecycle state, so in particular on the
never-initialized cell fresh from `new`. -/
theorem claim10_drop_uninit_destroy :
    StackWString.new.state = CellState.uninit ∧
    (∀ c : StackWString, StackWString.dropCalls c = [BoundaryCall.destroyCall]) ∧
    StackWString.dropCalls StackWString.new = [BoundaryCall.destroyCall] :=
  ⟨rfl, fun _ => rfl, rfl⟩

end CxxW
